import Mathlib

/-!
Verification of the mio-websocket server library (per-connection protocol
engine `src/client.rs`, facade `src/interface.rs`).  The engine's pure logic
is embedded shallowly: bytes are `Nat` (taken mod 256 where relevant), socket
I/O is abstracted into explicit outcome parameters, and the parts of the
program that live outside `src/` (the `websocket_essentials` frame types and
the HTTP parser) are modelled from the specification, each marked by a doc
comment starting with `Modelled from the spec:`.
-/

namespace MioWebsocket

/-! ## Byte-level helpers -/

/-- ASCII bytes of a string (all keys and header values involved are ASCII). -/
def asciiBytes (s : String) : List Nat :=
  s.data.map Char.toNat

/-- Split a list into chunks of `n` elements (the last chunk may be short);
structurally recursive on a fuel bounded by the list length. -/
def chunksOfAux (n : Nat) : Nat → List α → List (List α)
  | 0, _ => []
  | _, [] => []
  | fuel + 1, l => l.take n :: chunksOfAux n fuel (l.drop n)

/-- Split a list into chunks of `n` elements (the last chunk may be short). -/
def chunksOf (n : Nat) (l : List α) : List (List α) :=
  chunksOfAux n l.length l

/-! ## SHA-1
`Modelled from the spec:` the `sha1` crate used by `gen_key` is an external
dependency; the spec prescribes `SHA1` (FIPS 180-1), embedded here over byte
lists with 32-bit words as `Nat` reduced mod `2^32`. -/

/-- 32-bit left rotation. -/
def rotl32 (n x : Nat) : Nat :=
  ((x <<< n) ||| (x >>> (32 - n))) % 4294967296

/-- Big-endian bytes (`count` of them) of a natural number. -/
def beBytes (count n : Nat) : List Nat :=
  (List.range count).map (fun i => n >>> (8 * (count - 1 - i)) % 256)

/-- SHA-1 padding: append `0x80`, zero-pad to 56 mod 64, append 64-bit
big-endian bit length. -/
def sha1Pad (msg : List Nat) : List Nat :=
  let l := msg.length
  let padLen := (55 + 64 - l % 64) % 64 + 1
  msg ++ [128] ++ List.replicate (padLen - 1) 0 ++ beBytes 8 (8 * l)

/-- Big-endian 32-bit words from a list of bytes (length a multiple of 4). -/
def bytesToWords (bs : List Nat) : List Nat :=
  (chunksOf 4 bs).map (fun c => c.foldl (fun acc b => acc * 256 + b) 0)

/-- Extend the 16 message words to 80 schedule words. -/
def sha1Extend (w : List Nat) : Nat → List Nat
  | 0 => w
  | n + 1 =>
    let k := w.length
    let next := rotl32 1 ((w.getD (k - 3) 0) ^^^ (w.getD (k - 8) 0) ^^^
                          (w.getD (k - 14) 0) ^^^ (w.getD (k - 16) 0))
    sha1Extend (w ++ [next]) n

/-- One SHA-1 round: `t` is the round index, `(a,b,c,d,e)` the working state,
`wt` the schedule word. -/
def sha1Round (t : Nat) (s : Nat × Nat × Nat × Nat × Nat) (wt : Nat) :
    Nat × Nat × Nat × Nat × Nat :=
  let (a, b, c, d, e) := s
  let f :=
    if t < 20 then (b &&& c) ||| ((b ^^^ 4294967295) &&& d)
    else if t < 40 then b ^^^ c ^^^ d
    else if t < 60 then (b &&& c) ||| (b &&& d) ||| (c &&& d)
    else b ^^^ c ^^^ d
  let k :=
    if t < 20 then 1518500249
    else if t < 40 then 1859775393
    else if t < 60 then 2400959708
    else 3395469782
  let temp := (rotl32 5 a + f + e + k + wt) % 4294967296
  (temp, a, rotl32 30 b, c, d)

/-- Compress a single 64-byte block into the running hash `h` (5 words). -/
def sha1Block (h : List Nat) (block : List Nat) : List Nat :=
  let w := sha1Extend (bytesToWords block) 64
  let init := (h.getD 0 0, h.getD 1 0, h.getD 2 0, h.getD 3 0, h.getD 4 0)
  let (a, b, c, d, e) := w.enum.foldl (fun s (p : Nat × Nat) => sha1Round p.1 s p.2) init
  [(h.getD 0 0 + a) % 4294967296, (h.getD 1 0 + b) % 4294967296,
   (h.getD 2 0 + c) % 4294967296, (h.getD 3 0 + d) % 4294967296,
   (h.getD 4 0 + e) % 4294967296]

/-- SHA-1 digest (20 bytes) of a byte list. -/
def sha1 (msg : List Nat) : List Nat :=
  let blocks := chunksOf 64 (sha1Pad msg)
  let h := blocks.foldl sha1Block
    [1732584193, 4023233417, 2562383102, 271733878, 3285377520]
  h.flatMap (beBytes 4)

/-! ## Base64
`Modelled from the spec:` `rustc_serialize`'s `to_base64(STANDARD)` is an
external dependency; the spec prescribes standard-alphabet base64 with `=`
padding (RFC 4648). -/

/-- The standard base64 alphabet. -/
def base64Alphabet : List Char :=
  "ABCDEFGHIJKLMNOPQRSTUVWXYZabcdefghijklmnopqrstuvwxyz0123456789+/".data

/-- One base64 output character. -/
def b64Digit (n : Nat) : Char :=
  base64Alphabet.getD n '?'

/-- Encode one input group of at most three bytes into four characters. -/
def b64Group : List Nat → List Char
  | [a] => [b64Digit (a >>> 2), b64Digit ((a &&& 3) <<< 4), '=', '=']
  | [a, b] => [b64Digit (a >>> 2), b64Digit (((a &&& 3) <<< 4) ||| (b >>> 4)),
               b64Digit ((b &&& 15) <<< 2), '=']
  | [a, b, c] => [b64Digit (a >>> 2), b64Digit (((a &&& 3) <<< 4) ||| (b >>> 4)),
                  b64Digit (((b &&& 15) <<< 2) ||| (c >>> 6)), b64Digit (c &&& 63)]
  | _ => []

/-- Standard base64 encoding with `=` padding. -/
def toBase64 (bs : List Nat) : String :=
  String.mk (((chunksOf 3 bs).map b64Group).flatten)

/-! ## Handshake accept key (`gen_key`, src/client.rs:23) -/

/-- The RFC 6455 magic GUID (`WEBSOCKET_KEY`, src/client.rs:21). -/
def WEBSOCKET_KEY : List Nat :=
  asciiBytes "258EAFA5-E914-47DA-95CA-C5AB0DC85B11"

/-- Streaming SHA-1 context as used by `gen_key` (`Sha1::new()` then two
`update` calls then `output`). -/
structure Sha1Ctx where
  buffered : List Nat
  deriving DecidableEq, Repr

/-- `Sha1::new()`. -/
def Sha1Ctx.init : Sha1Ctx := ⟨[]⟩

/-- `m.update(bytes)`: append input bytes to the streamed message. -/
def Sha1Ctx.update (m : Sha1Ctx) (bytes : List Nat) : Sha1Ctx :=
  ⟨m.buffered ++ bytes⟩

/-- `m.output(&mut buf)`: the 20-byte digest of everything streamed so far. -/
def Sha1Ctx.output (m : Sha1Ctx) : List Nat :=
  sha1 m.buffered

/-- `gen_key` (src/client.rs:23-33): SHA-1 over the client key followed by the
magic GUID, then standard base64. -/
def gen_key (key : String) : String :=
  let m := Sha1Ctx.init
  let m := m.update (asciiBytes key)
  let m := m.update WEBSOCKET_KEY
  toBase64 m.output

/-! ## UTF-8 validation
Rust's `std::str::from_utf8` (used on inbound text payloads) validates and
decodes UTF-8, rejecting overlong encodings, surrogates and code points above
`U+10FFFF` (RFC 3629). -/

/-- Decode a UTF-8 byte list to its code points, or `none` if invalid. -/
def utf8DecodeCodepoints : List Nat → Option (List Nat)
  | [] => some []
  | b0 :: rest =>
    if b0 < 128 then
      (utf8DecodeCodepoints rest).map (fun cps => b0 :: cps)
    else if b0 < 194 then
      none
    else if b0 < 224 then
      match rest with
      | b1 :: rest1 =>
        if 128 ≤ b1 ∧ b1 < 192 then
          (utf8DecodeCodepoints rest1).map
            (fun cps => ((b0 - 192) * 64 + (b1 - 128)) :: cps)
        else none
      | _ => none
    else if b0 < 240 then
      match rest with
      | b1 :: b2 :: rest2 =>
        let lo1 := if b0 = 224 then 160 else 128
        let hi1 := if b0 = 237 then 160 else 192
        if (lo1 ≤ b1 ∧ b1 < hi1) ∧ (128 ≤ b2 ∧ b2 < 192) then
          (utf8DecodeCodepoints rest2).map
            (fun cps => ((b0 - 224) * 4096 + (b1 - 128) * 64 + (b2 - 128)) :: cps)
        else none
      | _ => none
    else if b0 ≤ 244 then
      match rest with
      | b1 :: b2 :: b3 :: rest3 =>
        let lo1 := if b0 = 240 then 144 else 128
        let hi1 := if b0 = 244 then 144 else 192
        if (lo1 ≤ b1 ∧ b1 < hi1) ∧ (128 ≤ b2 ∧ b2 < 192) ∧ (128 ≤ b3 ∧ b3 < 192) then
          (utf8DecodeCodepoints rest3).map
            (fun cps => ((b0 - 240) * 262144 + (b1 - 128) * 4096 +
                         (b2 - 128) * 64 + (b3 - 128)) :: cps)
        else none
      | _ => none
    else none

/-- `str::from_utf8` as a total function: the decoded string, or `none` when
the bytes are not valid UTF-8. -/
def utf8DecodeString (bs : List Nat) : Option String :=
  (utf8DecodeCodepoints bs).map (fun cps => String.mk (cps.map Char.ofNat))

/-! ## Frame model
`Modelled from the spec:` the `Frame`, `OpCode`, `StatusCode` and
`ParseError` types come from the external `websocket_essentials` crate; they
are modelled from the spec's data model (§3, §4.1) and close-code table (§6),
matching the constructor names used by `src/client.rs`. -/

/-- Frame opcodes (§3). -/
inductive OpCode
  | continuationFrame
  | textFrame
  | binaryFrame
  | connectionClose
  | ping
  | pong
  deriving DecidableEq, Repr

/-- Wire value of an opcode (§3). -/
def OpCode.toNat : OpCode → Nat
  | .continuationFrame => 0
  | .textFrame => 1
  | .binaryFrame => 2
  | .connectionClose => 8
  | .ping => 9
  | .pong => 10

/-- Close status codes used by the core (§6), plus the crate's catch-all
`Custom` carrying a raw code. -/
inductive StatusCode
  | normalClosure
  | protocolError
  | invalidFramePayloadData
  | noStatusReceived
  | custom (code : Nat)
  deriving DecidableEq, Repr

/-- Numeric wire value of a status code (§6). -/
def StatusCode.code : StatusCode → Nat
  | .normalClosure => 1000
  | .protocolError => 1002
  | .invalidFramePayloadData => 1007
  | .noStatusReceived => 1005
  | .custom n => n

/-- `StatusCode::from(u16)`: named codes map to their constructor, any other
code is preserved (§6: "Any other code received from the peer is preserved"). -/
def StatusCode.fromCode (n : Nat) : StatusCode :=
  if n = 1000 then .normalClosure
  else if n = 1002 then .protocolError
  else if n = 1007 then .invalidFramePayloadData
  else if n = 1005 then .noStatusReceived
  else .custom n

/-- A parsed (already unmasked) WebSocket frame (§3). -/
structure Frame where
  fin : Bool
  opcode : OpCode
  payload : List Nat
  deriving DecidableEq, Repr

/-- `Frame::from(&str)`: a final text frame whose payload is the UTF-8 bytes
of the string. -/
def Frame.fromStr (s : String) : Frame :=
  ⟨true, .textFrame, (s.data.map Char.toNat).flatMap (fun cp =>
    if cp < 128 then [cp]
    else if cp < 2048 then [192 + cp / 64, 128 + cp % 64]
    else if cp < 65536 then [224 + cp / 4096, 128 + cp / 64 % 64, 128 + cp % 64]
    else [240 + cp / 262144, 128 + cp / 4096 % 64, 128 + cp / 64 % 64, 128 + cp % 64])⟩

/-- `Frame::from(&[u8])`: a final binary frame with the given payload. -/
def Frame.fromBytes (b : List Nat) : Frame :=
  ⟨true, .binaryFrame, b⟩

/-- `Frame::close(status)`: a close frame carrying the status code as a
two-byte big-endian payload. -/
def Frame.close (s : StatusCode) : Frame :=
  ⟨true, .connectionClose, [s.code / 256 % 256, s.code % 256]⟩

/-- `Frame::ping(payload)`: a final ping frame. -/
def Frame.ping (p : List Nat) : Frame :=
  ⟨true, .ping, p⟩

/-- `Frame::pong(&frame)`: the pong reply to a ping, with identical payload
(§4.3: "queue a Pong frame with identical payload"). -/
def Frame.pong (f : Frame) : Frame :=
  ⟨true, .pong, f.payload⟩

/-- `frame.is_close()`. -/
def Frame.is_close (f : Frame) : Bool :=
  f.opcode = .connectionClose

/-- `Frame::close_from(&frame)`: the mirroring close reply to a received
close frame (§4.3: echo the status; malformed payload — a one-byte status or
a non-UTF-8 reason — is an error, which the caller answers with CLOSE 1002). -/
def Frame.close_from (f : Frame) : Except Unit Frame :=
  if f.payload.length = 0 then .ok ⟨true, .connectionClose, []⟩
  else if f.payload.length = 1 then .error ()
  else if (utf8DecodeString (f.payload.drop 2)).isSome then
    .ok ⟨true, .connectionClose, f.payload.take 2⟩
  else .error ()

/-- Serialization of a server-to-client frame (`Frame::write`, §4.1): header
byte, 7/7+16/7+64-bit length, no mask, payload verbatim. -/
def Frame.write (f : Frame) : List Nat :=
  let b0 := (if f.fin then 128 else 0) + f.opcode.toNat
  let len := f.payload.length
  let lenBytes :=
    if len ≤ 125 then [len]
    else if len ≤ 65535 then 126 :: beBytes 2 len
    else 127 :: beBytes 8 len
  b0 :: lenBytes ++ f.payload

/-- Frame-reader errors (§4.1); `src/client.rs` distinguishes only
`InvalidOpCode` from every other parse error. -/
inductive ParseError
  | invalidOpCode (byte : Nat)
  | protocolError
  deriving DecidableEq, Repr

/-! ## Events and engine state (src/interface.rs, src/client.rs) -/

/-- `WebSocketEvent` (src/interface.rs:14-21); the `Token` handle is a `Nat`. -/
inductive WebSocketEvent
  | connect (tok : Nat)
  | close (tok : Nat) (status : StatusCode)
  | ping (tok : Nat) (payload : List Nat)
  | pong (tok : Nat) (payload : List Nat)
  | textMessage (tok : Nat) (s : String)
  | binaryMessage (tok : Nat) (b : List Nat)
  deriving DecidableEq, Repr

/-- mio's `EventSet` restricted to the bits the client manipulates. -/
structure EventSet where
  readable : Bool
  writable : Bool
  hup : Bool
  deriving DecidableEq, Repr

/-- `EventSet::readable()`. -/
def EventSet.onlyReadable : EventSet := ⟨true, false, false⟩

/-- `ClientState` (src/client.rs:35-39); the handshake parser payload is kept
outside the state. -/
inductive ClientState
  | awaitingHandshake
  | handshakeResponse
  | connected
  deriving DecidableEq, Repr

/-- `WebSocketClient` (src/client.rs:41-53).  The socket, the channel
endpoints and the buffered frame reader are I/O resources and are abstracted: reads
and writes take explicit outcome parameters, and emitted events are returned
by each operation.  `shutdown_write` records the `socket.shutdown(Write)`
call. -/
structure WebSocketClient where
  interest : EventSet
  state : ClientState
  outgoing : List Frame
  outgoing_bytes : List Nat
  token : Nat
  close_connection : Bool
  shutdown_write : Bool
  deriving DecidableEq, Repr

/-- `WebSocketClient::new` (src/client.rs:56-76). -/
def WebSocketClient.new (token : Nat) : WebSocketClient :=
  { interest := EventSet.onlyReadable
    state := .awaitingHandshake
    outgoing := []
    outgoing_bytes := []
    token := token
    close_connection := false
    shutdown_write := false }

/-! ## Engine operations (src/client.rs) -/

/-- The frame built by `send_message` for a host event (src/client.rs:79-85);
`Connect` and `Pong` produce no frame. -/
def frameForEvent : WebSocketEvent → Option Frame
  | .textMessage _ data => some (Frame.fromStr data)
  | .binaryMessage _ data => some (Frame.fromBytes data)
  | .close _ status => some (Frame.close status)
  | .ping _ payload => some (Frame.ping payload)
  | _ => none

/-- `WebSocketClient::send_message` (src/client.rs:78-104).  On an
unsupported event it returns the error before touching the engine; otherwise
it appends the frame and, when currently readable, flips interest to
writable (the `Reregister` notification to the event loop is external I/O). -/
def WebSocketClient.send_message (c : WebSocketClient) (msg : WebSocketEvent) :
    WebSocketClient × Except String Unit :=
  match frameForEvent msg with
  | none => (c, .error "Wrong message type to send")
  | some frame =>
    let c := { c with outgoing := c.outgoing ++ [frame] }
    if c.interest.readable then
      ({ c with interest := { readable := false, writable := true, hup := c.interest.hup } },
       .ok ())
    else (c, .ok ())

/-- `WebSocketClient::close_with_status` (src/client.rs:106-108). -/
def WebSocketClient.close_with_status (c : WebSocketClient) (status : StatusCode) :
    WebSocketClient :=
  { c with outgoing := c.outgoing ++ [Frame.close status] }

/-- `WebSocketClient::serialize_frames` (src/client.rs:137-148): every queued
frame serialized back to back. -/
def WebSocketClient.serialize_frames (c : WebSocketClient) : List Nat :=
  (c.outgoing.map Frame.write).flatten

/-- `WebSocketClient::write_handshake` (src/client.rs:118-135): write the 101
response (external I/O), become `Connected`, emit `Connect`, flip interest to
readable. -/
def WebSocketClient.write_handshake (c : WebSocketClient) :
    WebSocketClient × List WebSocketEvent :=
  ({ c with state := .connected,
            interest := { readable := true, writable := false, hup := c.interest.hup } },
   [.connect c.token])

/-- The `write_frames` loop (src/client.rs:150-191).  The socket is modelled
as accepting up to `cap` more bytes before returning would-block; `werr`
makes the first write attempt fail.  One iteration: refill the byte buffer
from the frame queue when drained (recording whether a close frame went out);
when both are empty, shut down the write half if a close was flushed and flip
interest to readable; otherwise write, handling error / would-block. -/
def WebSocketClient.write_frames_loop (c : WebSocketClient) (cap : Nat) (werr : Bool) :
    WebSocketClient :=
  if c.outgoing_bytes = [] then
    if h : c.outgoing = [] then
      let c := if c.close_connection then { c with shutdown_write := true } else c
      { c with interest := { readable := true, writable := false, hup := c.interest.hup } }
    else
      let refilled :=
        { c with outgoing_bytes := c.serialize_frames,
                 close_connection := c.close_connection || c.outgoing.any Frame.is_close,
                 outgoing := [] }
      write_frames_loop refilled cap werr
  else if werr then
    { c with interest := { readable := c.interest.readable, writable := false, hup := true } }
  else if cap = 0 then
    c
  else
    let n := min cap c.outgoing_bytes.length
    write_frames_loop { c with outgoing_bytes := c.outgoing_bytes.drop n } (cap - n) werr
termination_by cap * 2 + c.outgoing.length
decreasing_by
  · have h1 : 0 < c.outgoing.length := List.length_pos.mpr h
    simpa using h1
  · rename_i hbytes _hwerr hcap
    have h1 : 0 < c.outgoing_bytes.length := List.length_pos.mpr hbytes
    omega

/-- `WebSocketClient::write_frames` (src/client.rs:150). -/
def WebSocketClient.write_frames (c : WebSocketClient) (cap : Nat) (werr : Bool) :
    WebSocketClient :=
  c.write_frames_loop cap werr

/-- Dispatch of one completed inbound frame (src/client.rs:240-278).  Returns
the updated engine, the events sent to the host, and whether the inner parse
loop `break`s (only the invalid-UTF-8 text path does). -/
def WebSocketClient.dispatchFrame (c : WebSocketClient) (frame : Frame) :
    WebSocketClient × List WebSocketEvent × Bool :=
  match frame.opcode with
  | .textFrame =>
    match utf8DecodeString frame.payload with
    | none => (c.close_with_status .protocolError, [], true)
    | some s => (c, [.textMessage c.token s], false)
  | .binaryFrame => (c, [.binaryMessage c.token frame.payload], false)
  | .ping =>
    if 125 < frame.payload.length then
      (c.close_with_status .protocolError, [], false)
    else
      ({ c with outgoing := c.outgoing ++ [Frame.pong frame] }, [], false)
  | .connectionClose =>
    let ev :=
      if 2 ≤ frame.payload.length then
        WebSocketEvent.close c.token
          (StatusCode.fromCode (frame.payload.getD 0 0 * 256 + frame.payload.getD 1 0))
      else
        WebSocketEvent.close c.token (.custom 0)
    let c :=
      match Frame.close_from frame with
      | .ok response => { c with outgoing := c.outgoing ++ [response] }
      | .error _ => c.close_with_status .protocolError
    (c, [ev], false)
  | _ => (c, [], false)

/-- The inner parse loop of `read_frame` (src/client.rs:224-281) over the
sequence of frame-reader results for one read buffer.  The third component is
true when the loop `return`ed early (fatal parse error: interest flipped to
hangup, remaining results discarded). -/
def WebSocketClient.processResults (c : WebSocketClient) :
    List (Except ParseError Frame) → WebSocketClient × List WebSocketEvent × Bool
  | [] => (c, [], false)
  | .error (.invalidOpCode _) :: _ =>
    (c.close_with_status .protocolError, [], false)
  | .error _ :: _ =>
    ({ c with interest := { readable := false, writable := c.interest.writable, hup := true } },
     [], true)
  | .ok frame :: rest =>
    let (c1, evs, brk) := c.dispatchFrame frame
    if brk then (c1, evs, false)
    else
      let (c2, evs2, early) := c1.processResults rest
      (c2, evs ++ evs2, early)

/-- Outcome of the socket reads performed by one `read_frame` call: an
immediate error, would-block, or one buffer of data whose frame-reader
results are `rs`, followed by either would-block or EOF (`Ok(Some(0))`). -/
inductive ReadOutcome
  | sockErr
  | wouldBlock
  | data (rs : List (Except ParseError Frame)) (thenEof : Bool)

/-- The final interest switch of `read_frame` (src/client.rs:289-293). -/
def WebSocketClient.readFinish (c : WebSocketClient) : WebSocketClient :=
  if c.outgoing = [] then c
  else { c with interest := { readable := false, writable := true, hup := c.interest.hup } }

/-- `WebSocketClient::read_frame` (src/client.rs:201-294). -/
def WebSocketClient.read_frame (c : WebSocketClient) (out : ReadOutcome) :
    WebSocketClient × List WebSocketEvent :=
  match out with
  | .sockErr =>
    ({ c with interest := { readable := false, writable := c.interest.writable, hup := true } },
     [])
  | .wouldBlock => (c.readFinish, [])
  | .data rs thenEof =>
    let (c1, evs, early) := c.processResults rs
    if early then (c1, evs)
    else if thenEof then
      ({ c1 with interest := { readable := false, writable := c1.interest.writable, hup := true } },
       evs)
    else (c1.readFinish, evs)

/-- What the HTTP parser exposes for one handshake read.
`Modelled from the spec:` the `http_muncher` parser and `src/http.rs` (not
under `src/`) accumulate headers and report the upgrade flag (§4.2); the
engine consults only `is_upgrade()`. -/
structure HandshakeRequest where
  is_upgrade : Bool
  secWebSocketKey : Option String
  secWebSocketVersion : Option String

/-- `WebSocketClient::read_handshake` (src/client.rs:296-326): on a socket
error nothing changes; when the parser reports an upgrade request the state
becomes `HandshakeResponse` and interest flips to writable.  No field of the
request other than `is_upgrade` is consulted. -/
def WebSocketClient.read_handshake (c : WebSocketClient) (req : HandshakeRequest) :
    WebSocketClient :=
  if req.is_upgrade then
    { c with state := .handshakeResponse,
             interest := { readable := false, writable := true, hup := c.interest.hup } }
  else c

/-- `WebSocketClient::read` (src/client.rs:193-199). -/
def WebSocketClient.read (c : WebSocketClient) (req : HandshakeRequest) (out : ReadOutcome) :
    WebSocketClient × List WebSocketEvent :=
  match c.state with
  | .awaitingHandshake => (c.read_handshake req, [])
  | .connected => c.read_frame out
  | _ => (c, [])

/-- `WebSocketClient::write` (src/client.rs:110-116). -/
def WebSocketClient.write (c : WebSocketClient) (cap : Nat) (werr : Bool) :
    WebSocketClient × List WebSocketEvent :=
  match c.state with
  | .handshakeResponse => c.write_handshake
  | .connected => (c.write_frames cap werr, [])
  | _ => (c, [])

/-! ## Reactor-driven evolution
`Modelled from the spec:` the reactor (`src/server.rs`, not under `src/`)
dispatches readable notifications to `read`, writable notifications to
`write`, and `Send` commands to `send_message` (§4.4); it calls `read` only
on a socket registered readable and `write` only on one registered writable. -/

/-- One reactor-driven operation on a connection engine, with its I/O
nondeterminism made explicit. -/
inductive Op
  | read (req : HandshakeRequest) (out : ReadOutcome)
  | write (cap : Nat) (werr : Bool)
  | send (msg : WebSocketEvent)

/-- Reactor discipline: reads need registered readable interest, writes need
writable interest; `Send` commands can arrive at any time. -/
def opAllowed (c : WebSocketClient) : Op → Prop
  | .read _ _ => c.interest.readable = true
  | .write _ _ => c.interest.writable = true
  | .send _ => True

/-- Apply one operation to the engine. -/
def applyOp (c : WebSocketClient) : Op → WebSocketClient × List WebSocketEvent
  | .read req out => c.read req out
  | .write cap werr => c.write cap werr
  | .send msg => ((c.send_message msg).1, [])

/-- The engine states reachable from a fresh connection under reactor
discipline. -/
inductive Reachable : WebSocketClient → Prop
  | init (token : Nat) : Reachable (WebSocketClient.new token)
  | step {c : WebSocketClient} (op : Op) :
      Reachable c → opAllowed c op → Reachable (applyOp c op).1

/-- The interest-set invariant the code actually maintains: the interest set
is always exactly one of readable / writable / hangup; writable entails a
non-empty outbound queue or byte buffer, or the pending 101 handshake
response; readable never holds while the 101 response is pending; and while
awaiting the handshake, readable entails an empty outbound side. -/
def Inv (c : WebSocketClient) : Prop :=
  (c.interest = ⟨true, false, false⟩ ∨ c.interest = ⟨false, true, false⟩ ∨
   c.interest = ⟨false, false, true⟩) ∧
  (c.interest.writable = true →
    (c.outgoing ≠ [] ∨ c.outgoing_bytes ≠ [] ∨ c.state = .handshakeResponse)) ∧
  (c.interest.readable = true → c.state ≠ .handshakeResponse) ∧
  (c.interest.readable = true → c.state = .awaitingHandshake →
    (c.outgoing = [] ∧ c.outgoing_bytes = []))

instance (c : WebSocketClient) : Decidable (Inv c) := by
  unfold Inv; infer_instance

/-! ## Facade (src/interface.rs) -/

/-- mio's `NotifyError` as observed by `send_internal`. -/
inductive NotifyError (α : Type)
  | io
  | full (val : α)
  | closed

/-- The behavior of the bounded command channel towards one send attempt. -/
inductive ChanBehavior
  | accepts
  | rejectsFull
  | errIo
  | errClosed
  deriving DecidableEq, Repr

/-- Observable outcome of one `send_internal` call: the returned result, the
message the channel accepted (if any), and how many 10 ms sleeps were taken. -/
structure SendTrace (α : Type) where
  result : Except (NotifyError α) Unit
  delivered : Option α
  sleeps : Nat

/-- `WebSocket::send_internal` (src/interface.rs:73-85) against a channel
whose successive attempt outcomes are `outcomes`.  On `Full(ret)` the
returned value is retried after a sleep; any other result is returned.
`none` means the outcome trace ended while the loop was still retrying. -/
def send_internal {α : Type} : List ChanBehavior → α → Option (SendTrace α)
  | [], _ => none
  | behavior :: rest, msg =>
    match behavior with
    | .accepts => some ⟨.ok (), some msg, 0⟩
    | .errIo => some ⟨.error .io, none, 0⟩
    | .errClosed => some ⟨.error .closed, none, 0⟩
    | .rejectsFull =>
      (send_internal rest msg).map (fun t => { t with sleeps := t.sleeps + 1 })

/-! ## Theorems -/

set_option maxRecDepth 100000

/-- `StatusCode::from` preserves the numeric code. -/
theorem statusCode_fromCode_code (n : Nat) : (StatusCode.fromCode n).code = n := by
  unfold StatusCode.fromCode
  split
  · simp_all [StatusCode.code]
  · split
    · simp_all [StatusCode.code]
    · split
      · simp_all [StatusCode.code]
      · split <;> simp_all [StatusCode.code]

/-- C1: for every non-empty ASCII key the handshake accept value is
`base64(SHA1(key ++ "258EAFA5-E914-47DA-95CA-C5AB0DC85B11"))` with
standard-alphabet, `=`-padded base64; on the RFC 6455 sample key
`dGhlIHNhbXBsZSBub25jZQ==` it is `s3pPLMBiTxaQ9kYGzzhZRbK+xOo=`. -/
theorem c1_handshake_accept (key : String) (_hne : key ≠ "")
    (_hascii : ∀ ch ∈ key.data, ch.toNat < 128) :
    gen_key key = toBase64 (sha1 (asciiBytes key ++ WEBSOCKET_KEY)) ∧
    gen_key "dGhlIHNhbXBsZSBub25jZQ==" = "s3pPLMBiTxaQ9kYGzzhZRbK+xOo=" := by
  refine ⟨rfl, ?_⟩
  decide

/-- Witness for C1 at the RFC 6455 sample key. -/
theorem c1_handshake_accept_witness :
    gen_key "dGhlIHNhbXBsZSBub25jZQ==" = "s3pPLMBiTxaQ9kYGzzhZRbK+xOo=" :=
  (c1_handshake_accept "dGhlIHNhbXBsZSBub25jZQ==" (by decide) (by decide)).2

/-- C8: the handshake path never consults `Sec-WebSocket-Version` — the
`read` outcome is identical whatever that header holds — and a request whose
version is `8` still completes the upgrade (state `HandshakeResponse`, 101
path) instead of being answered with HTTP 400. -/
theorem c8_version_not_checked (c : WebSocketClient) (u : Bool)
    (k v1 v2 : Option String) (out : ReadOutcome) :
    c.read ⟨u, k, v1⟩ out = c.read ⟨u, k, v2⟩ out ∧
    ((WebSocketClient.new 7).read
        ⟨true, some "dGhlIHNhbXBsZSBub25jZQ==", some "8"⟩ .wouldBlock).1.state
      = .handshakeResponse := by
  constructor
  · cases hs : c.state <;>
      simp [WebSocketClient.read, WebSocketClient.read_handshake]
  · rfl

/-- C9: the facade's `send_internal` retries a `Full` channel after a sleep,
with the very same command, until the channel accepts it (`k` rejections cost
`k` sleeps and the original message is delivered); a result is never the
`Full` error, and a successful send always delivered the original message. -/
theorem c9_send_retries_until_accepted (α : Type) (msg : α) (k : Nat)
    (rest : List ChanBehavior) :
    send_internal (List.replicate k .rejectsFull ++ .accepts :: rest) msg =
      some { result := .ok (), delivered := some msg, sleeps := k } ∧
    ∀ (outcomes : List ChanBehavior) (t : SendTrace α),
      send_internal outcomes msg = some t →
      (∀ a, t.result ≠ .error (.full a)) ∧
      (t.result = .ok () → t.delivered = some msg) := by
  constructor
  · induction k with
    | zero => rfl
    | succ n ih => simp [List.replicate_succ, send_internal, ih]
  · intro outcomes
    induction outcomes with
    | nil => intro t h; simp [send_internal] at h
    | cons b rest2 ih =>
      intro t h
      cases b
      · simp only [send_internal, Option.some.injEq] at h
        subst h
        simp
      · simp only [send_internal, Option.map_eq_some'] at h
        obtain ⟨t', ht', rfl⟩ := h
        exact ih t' ht'
      · simp only [send_internal, Option.some.injEq] at h
        subst h
        simp
      · simp only [send_internal, Option.some.injEq] at h
        subst h
        simp

/-- Witness for C9: two rejections, then acceptance, of a concrete command. -/
theorem c9_send_retries_until_accepted_witness :
    send_internal [ChanBehavior.rejectsFull, ChanBehavior.rejectsFull, ChanBehavior.accepts]
      (42 : Nat) = some { result := .ok (), delivered := some 42, sleeps := 2 } :=
  (c9_send_retries_until_accepted Nat 42 2 []).1

/-- C10: `send_message` with a `Connect` or `Pong` event returns the
"wrong message type" error and leaves the engine — outbound queue and
interest set included — untouched. -/
theorem c10_send_message_rejects_connect_pong (c : WebSocketClient)
    (tok : Nat) (payload : List Nat) :
    c.send_message (.connect tok) = (c, .error "Wrong message type to send") ∧
    c.send_message (.pong tok payload) = (c, .error "Wrong message type to send") :=
  ⟨rfl, rfl⟩

/-- C3 counterexample: on the Text frame with payload `FF FE` (not UTF-8) the
engine queues `Frame::close(StatusCode::ProtocolError)` — wire code 1002 —
and not a 1007 (`InvalidFramePayloadData`) close as the claim states. -/
theorem c3_counterexample :
    (({ WebSocketClient.new 7 with state := .connected } : WebSocketClient).dispatchFrame
        ⟨true, .textFrame, [255, 254]⟩).1.outgoing = [Frame.close .protocolError] ∧
    (({ WebSocketClient.new 7 with state := .connected } : WebSocketClient).dispatchFrame
        ⟨true, .textFrame, [255, 254]⟩).1.outgoing ≠
      [Frame.close .invalidFramePayloadData] ∧
    StatusCode.protocolError.code = 1002 ∧
    StatusCode.invalidFramePayloadData.code = 1007 := by
  decide

/-- C3 (amended): an inbound Text frame whose payload is not valid UTF-8
makes the engine queue a CLOSE with status 1002 (`ProtocolError`, not 1007)
and stop parsing the rest of the read buffer (there is no `Closing` state);
a valid-UTF-8 payload is emitted to the host as a `TextMessage` carrying the
decoded string. -/
theorem c3_text_utf8_close_1002 (c : WebSocketClient) (frame : Frame)
    (hop : frame.opcode = .textFrame) :
    (utf8DecodeString frame.payload = none →
      c.dispatchFrame frame =
        ({ c with outgoing := c.outgoing ++ [Frame.close .protocolError] }, [], true) ∧
      StatusCode.protocolError.code = 1002) ∧
    (∀ s, utf8DecodeString frame.payload = some s →
      c.dispatchFrame frame = (c, [.textMessage c.token s], false)) := by
  constructor
  · intro hnone
    refine ⟨?_, rfl⟩
    simp [WebSocketClient.dispatchFrame, hop, hnone, WebSocketClient.close_with_status]
  · intro s hsome
    simp [WebSocketClient.dispatchFrame, hop, hsome]

/-- Witness for C3 at the invalid payload `FF FE` and the valid payload
`"Hello"`. -/
theorem c3_text_utf8_close_1002_witness :
    (({ WebSocketClient.new 7 with state := .connected } : WebSocketClient).dispatchFrame
        ⟨true, .textFrame, [255, 254]⟩ =
      ({ { WebSocketClient.new 7 with state := .connected } with
           outgoing := [Frame.close .protocolError] }, [], true)) ∧
    (({ WebSocketClient.new 7 with state := .connected } : WebSocketClient).dispatchFrame
        ⟨true, .textFrame, [72, 101, 108, 108, 111]⟩ =
      ({ WebSocketClient.new 7 with state := .connected }, [.textMessage 7 "Hello"], false)) := by
  constructor
  · have h := (c3_text_utf8_close_1002
      { WebSocketClient.new 7 with state := .connected }
      ⟨true, .textFrame, [255, 254]⟩ rfl).1 (by decide)
    simpa using h.1
  · exact (c3_text_utf8_close_1002
      { WebSocketClient.new 7 with state := .connected }
      ⟨true, .textFrame, [72, 101, 108, 108, 111]⟩ rfl).2 "Hello" (by decide)

/-- C4 counterexample: an inbound Close frame with empty payload yields
`Close(handle, Custom(0))` — wire status 0, not the claimed 1005. -/
theorem c4_counterexample :
    (({ WebSocketClient.new 7 with state := .connected } : WebSocketClient).dispatchFrame
        ⟨true, .connectionClose, []⟩).2.1 = [.close 7 (.custom 0)] ∧
    (StatusCode.custom 0).code = 0 ∧
    (StatusCode.custom 0).code ≠ 1005 := by
  decide

/-- C4 (amended): a Close frame with empty payload is reported to the host as
`Close(handle, Custom(0))` (wire status 0, not 1005); one whose payload has
at least two bytes is reported with the status read big-endian from its first
two bytes. -/
theorem c4_close_status_codes (c : WebSocketClient) (frame : Frame)
    (hop : frame.opcode = .connectionClose) :
    (frame.payload = [] →
      (c.dispatchFrame frame).2.1 = [.close c.token (.custom 0)] ∧
      (StatusCode.custom 0).code = 0) ∧
    (∀ b0 b1 bs, frame.payload = b0 :: b1 :: bs →
      (c.dispatchFrame frame).2.1 =
        [.close c.token (StatusCode.fromCode (b0 * 256 + b1))] ∧
      (StatusCode.fromCode (b0 * 256 + b1)).code = b0 * 256 + b1) := by
  constructor
  · intro hnil
    refine ⟨?_, rfl⟩
    simp [WebSocketClient.dispatchFrame, hop, hnil]
  · intro b0 b1 bs hpl
    refine ⟨?_, statusCode_fromCode_code _⟩
    simp [WebSocketClient.dispatchFrame, hop, hpl]

/-- Witness for C4 at the empty close and the `03 E8` (1000) close. -/
theorem c4_close_status_codes_witness :
    (({ WebSocketClient.new 7 with state := .connected } : WebSocketClient).dispatchFrame
        ⟨true, .connectionClose, []⟩).2.1 = [.close 7 (.custom 0)] ∧
    (({ WebSocketClient.new 7 with state := .connected } : WebSocketClient).dispatchFrame
        ⟨true, .connectionClose, [3, 232]⟩).2.1 = [.close 7 .normalClosure] ∧
    StatusCode.normalClosure.code = 1000 := by
  refine ⟨?_, ?_, rfl⟩
  · exact ((c4_close_status_codes { WebSocketClient.new 7 with state := .connected }
      ⟨true, .connectionClose, []⟩ rfl).1 rfl).1
  · have h := ((c4_close_status_codes { WebSocketClient.new 7 with state := .connected }
      ⟨true, .connectionClose, [3, 232]⟩ rfl).2 3 232 [] rfl).1
    simpa [StatusCode.fromCode] using h

/-- C5: an inbound Ping with payload of at most 125 bytes queues a Pong frame
with the identical payload; a longer Ping instead queues a CLOSE with status
1002 (`ProtocolError`). -/
theorem c5_ping_pong_echo (c : WebSocketClient) (frame : Frame)
    (hop : frame.opcode = .ping) :
    (frame.payload.length ≤ 125 →
      c.dispatchFrame frame =
        ({ c with outgoing := c.outgoing ++ [Frame.pong frame] }, [], false) ∧
      (Frame.pong frame).payload = frame.payload) ∧
    (125 < frame.payload.length →
      c.dispatchFrame frame =
        ({ c with outgoing := c.outgoing ++ [Frame.close .protocolError] }, [], false) ∧
      StatusCode.protocolError.code = 1002) := by
  constructor
  · intro hlen
    refine ⟨?_, rfl⟩
    simp [WebSocketClient.dispatchFrame, hop, Nat.not_lt.mpr hlen]
  · intro hlen
    refine ⟨?_, rfl⟩
    simp [WebSocketClient.dispatchFrame, hop, hlen, WebSocketClient.close_with_status]

/-- Witness for C5 at a 3-byte ping and a 126-byte ping. -/
theorem c5_ping_pong_echo_witness :
    (({ WebSocketClient.new 7 with state := .connected } : WebSocketClient).dispatchFrame
        ⟨true, .ping, [1, 2, 3]⟩).1.outgoing = [⟨true, .pong, [1, 2, 3]⟩] ∧
    (({ WebSocketClient.new 7 with state := .connected } : WebSocketClient).dispatchFrame
        ⟨true, .ping, List.replicate 126 0⟩).1.outgoing = [Frame.close .protocolError] := by
  constructor
  · have h := ((c5_ping_pong_echo { WebSocketClient.new 7 with state := .connected }
      ⟨true, .ping, [1, 2, 3]⟩ rfl).1 (by decide)).1
    simpa [Frame.pong] using congrArg (fun r => r.1.outgoing) h
  · have h := ((c5_ping_pong_echo { WebSocketClient.new 7 with state := .connected }
      ⟨true, .ping, List.replicate 126 0⟩ rfl).2 (by simp)).1
    simpa using congrArg (fun r => r.1.outgoing) h

/-- C6 counterexample: a completed inbound Ping (and likewise Pong) frame
sends no event at all to the host — the dispatch only queues the Pong reply —
contradicting the claim that `Ping` / `Pong` events are emitted. -/
theorem c6_counterexample :
    (({ WebSocketClient.new 7 with state := .connected } : WebSocketClient).dispatchFrame
        ⟨true, .ping, [1, 2, 3]⟩).2.1 = [] ∧
    (({ WebSocketClient.new 7 with state := .connected } : WebSocketClient).dispatchFrame
        ⟨true, .pong, [4, 5]⟩).2.1 = [] := by
  decide

/-- C6 (amended): the engine emits no host event for inbound Ping or Pong
frames: a Ping only queues the Pong reply (or a close), and a Pong falls
through the dispatch leaving the engine untouched. -/
theorem c6_no_ping_pong_events (c : WebSocketClient) (f g : Frame)
    (hf : f.opcode = .ping) (hg : g.opcode = .pong) :
    (c.dispatchFrame f).2.1 = [] ∧ c.dispatchFrame g = (c, [], false) := by
  constructor
  · simp only [WebSocketClient.dispatchFrame, hf]
    split <;> simp
  · simp [WebSocketClient.dispatchFrame, hg]

/-- Witness for C6 at a concrete ping and pong. -/
theorem c6_no_ping_pong_events_witness :
    (({ WebSocketClient.new 7 with state := .connected } : WebSocketClient).dispatchFrame
        ⟨true, .ping, [9]⟩).2.1 = [] ∧
    ({ WebSocketClient.new 7 with state := .connected } : WebSocketClient).dispatchFrame
        ⟨true, .pong, [4, 5]⟩ =
      ({ WebSocketClient.new 7 with state := .connected }, [], false) :=
  c6_no_ping_pong_events { WebSocketClient.new 7 with state := .connected }
    ⟨true, .ping, [9]⟩ ⟨true, .pong, [4, 5]⟩ rfl rfl

/-- C7 counterexample: a frame-parse protocol error other than `InvalidOpCode`
(the reader's `ProtocolError`, covering rsv bits / bad length / oversized
control) makes `read_frame` flip straight to hangup without queueing any
CLOSE frame, contradicting the claimed CLOSE-1002-then-flush behavior. -/
theorem c7_counterexample :
    (({ WebSocketClient.new 7 with state := .connected } : WebSocketClient).read_frame
        (.data [.error .protocolError] false)).1.outgoing = [] ∧
    (({ WebSocketClient.new 7 with state := .connected } : WebSocketClient).read_frame
        (.data [.error .protocolError] false)).1.interest =
      ⟨false, false, true⟩ := by
  decide

/-- C7 (amended): only an `InvalidOpCode` parse error queues a CLOSE with
status 1002 and leaves the engine flushing (writable, no hangup; once the
close frame is flushed by `write_frames` the write side is shut down); every
other parse error terminates the connection immediately — interest flips to
hangup and no CLOSE frame is queued. -/
theorem c7_parse_error_handling (c : WebSocketClient) (b : Nat)
    (rs : List (Except ParseError Frame)) :
    (c.read_frame (.data (.error (.invalidOpCode b) :: rs) false) =
      ({ c with
          outgoing := c.outgoing ++ [Frame.close .protocolError]
          interest := ⟨false, true, c.interest.hup⟩ }, []) ∧
     StatusCode.protocolError.code = 1002) ∧
    (c.read_frame (.data (.error .protocolError :: rs) false) =
      ({ c with interest := ⟨false, c.interest.writable, true⟩ }, [])) ∧
    ((WebSocketClient.write_frames
        { interest := ⟨false, true, false⟩, state := .connected,
          outgoing := [Frame.close .protocolError], outgoing_bytes := [],
          token := c.token, close_connection := false,
          shutdown_write := false } 100 false).shutdown_write = true ∧
     (WebSocketClient.write_frames
        { interest := ⟨false, true, false⟩, state := .connected,
          outgoing := [Frame.close .protocolError], outgoing_bytes := [],
          token := c.token, close_connection := false,
          shutdown_write := false } 100 false).interest = ⟨true, false, false⟩) := by
  refine ⟨⟨?_, rfl⟩, ?_, ?_⟩
  · simp [WebSocketClient.read_frame, WebSocketClient.processResults,
      WebSocketClient.close_with_status, WebSocketClient.readFinish]
  · simp [WebSocketClient.read_frame, WebSocketClient.processResults]
  · rw [WebSocketClient.write_frames, WebSocketClient.write_frames_loop]
    norm_num [WebSocketClient.serialize_frames, Frame.write, Frame.is_close,
      beBytes, Frame.close]
    rw [WebSocketClient.write_frames_loop]
    norm_num
    rw [WebSocketClient.write_frames_loop]
    norm_num [OpCode.toNat, StatusCode.code]
    simp

/-! ### Interest-set invariant (C2) -/

/-- Frame dispatch never touches the interest set, the state or the byte
buffer, and only appends to the outbound frame queue. -/
theorem dispatchFrame_fields (c : WebSocketClient) (f : Frame) :
    (c.dispatchFrame f).1.interest = c.interest ∧
    (c.dispatchFrame f).1.state = c.state ∧
    (c.dispatchFrame f).1.outgoing_bytes = c.outgoing_bytes ∧
    ∃ l, (c.dispatchFrame f).1.outgoing = c.outgoing ++ l := by
  rcases f with ⟨fin, op, payload⟩
  cases op
  case continuationFrame => exact ⟨rfl, rfl, rfl, [], by simp [WebSocketClient.dispatchFrame]⟩
  case textFrame =>
    cases h : utf8DecodeString payload <;>
      simp [WebSocketClient.dispatchFrame, WebSocketClient.close_with_status, h]
  case binaryFrame => exact ⟨rfl, rfl, rfl, [], by simp [WebSocketClient.dispatchFrame]⟩
  case connectionClose =>
    cases hcf : Frame.close_from ⟨fin, .connectionClose, payload⟩ <;>
      simp [WebSocketClient.dispatchFrame, WebSocketClient.close_with_status, hcf]
  case ping =>
    rcases Nat.lt_or_ge 125 payload.length with h | h
    · simp [WebSocketClient.dispatchFrame, WebSocketClient.close_with_status, h]
    · simp [WebSocketClient.dispatchFrame, Nat.not_lt.mpr h]
  case pong => exact ⟨rfl, rfl, rfl, [], by simp [WebSocketClient.dispatchFrame]⟩

/-- The inner parse loop never touches the state or the byte buffer, only
appends to the frame queue, and leaves the interest set unchanged unless it
returned early, in which case readable is traded for hangup. -/
theorem processResults_fields (rs : List (Except ParseError Frame))
    (c : WebSocketClient) :
    (c.processResults rs).1.state = c.state ∧
    (c.processResults rs).1.outgoing_bytes = c.outgoing_bytes ∧
    (∃ l, (c.processResults rs).1.outgoing = c.outgoing ++ l) ∧
    ((c.processResults rs).2.2 = false → (c.processResults rs).1.interest = c.interest) ∧
    ((c.processResults rs).2.2 = true →
      (c.processResults rs).1.interest = ⟨false, c.interest.writable, true⟩) := by
  induction rs generalizing c with
  | nil => simp [WebSocketClient.processResults]
  | cons r rest ih =>
    match r with
    | .error (.invalidOpCode b) =>
      simp [WebSocketClient.processResults, WebSocketClient.close_with_status]
    | .error .protocolError =>
      simp [WebSocketClient.processResults]
    | .ok f =>
      obtain ⟨hint, hst, hbytes, hout⟩ := dispatchFrame_fields c f
      simp only [WebSocketClient.processResults]
      cases hbrk : (c.dispatchFrame f).2.2
      · obtain ⟨hst2, hbytes2, ⟨l2, hout2⟩, hnoearly, hearly⟩ := ih (c.dispatchFrame f).1
        simp only [hbrk, Bool.false_eq_true, if_false]
        obtain ⟨l1, hl1⟩ := hout
        refine ⟨by rw [hst2, hst], by rw [hbytes2, hbytes], ⟨l1 ++ l2, ?_⟩, ?_, ?_⟩
        · rw [hout2, hl1, List.append_assoc]
        · intro he
          rw [hnoearly he, hint]
        · intro he
          rw [hearly he, hint]
      · simp only [hbrk, if_true]
        exact ⟨hst, hbytes, hout, fun _ => hint, by simp⟩

/-- `write_frames_loop` establishes the invariant whenever it is entered in
`Connected` state with writable-only interest. -/
theorem inv_write_frames_loop (c : WebSocketClient) (cap : Nat) (werr : Bool)
    (hst : c.state = .connected) (hint : c.interest = ⟨false, true, false⟩) :
    Inv (c.write_frames_loop cap werr) := by
  induction c, cap, werr using WebSocketClient.write_frames_loop.induct with
  | case1 c cap werr hbytes hout =>
    cases hcc : c.close_connection <;>
      (rw [WebSocketClient.write_frames_loop]
       simp [hbytes, hout, hcc, Inv, hint, hst])
  | case2 c cap werr hbytes hout refilled ih =>
    rw [WebSocketClient.write_frames_loop]
    rw [if_pos hbytes, dif_neg hout]
    exact ih hst hint
  | case3 c cap hbytes =>
    rw [WebSocketClient.write_frames_loop]
    rw [if_neg hbytes]
    simp [Inv, hint]
  | case4 c werr hbytes hwerr =>
    rw [WebSocketClient.write_frames_loop]
    rw [if_neg hbytes, if_neg hwerr, if_pos rfl]
    refine ⟨Or.inr (Or.inl hint), fun _ => Or.inr (Or.inl hbytes), ?_, ?_⟩ <;>
      simp [hint]
  | case5 c cap werr hbytes hwerr hcap n ih =>
    rw [WebSocketClient.write_frames_loop]
    rw [if_neg hbytes, if_neg hwerr, if_neg hcap]
    exact ih hst hint

/-- One reactor-driven operation preserves the interest-set invariant. -/
theorem inv_applyOp (c : WebSocketClient) (op : Op)
    (hInv : Inv c) (hAllowed : opAllowed c op) : Inv (applyOp c op).1 := by
  obtain ⟨hone, hw, hrhs, hrah⟩ := hInv
  cases op with
  | read req out =>
    have hr : c.interest.readable = true := hAllowed
    have hint : c.interest = ⟨true, false, false⟩ := by
      rcases hone with h | h | h <;> simp [h] at hr ⊢
    simp only [applyOp, WebSocketClient.read]
    cases hst : c.state with
    | awaitingHandshake =>
      obtain ⟨ho, hb⟩ := hrah hr hst
      simp only [WebSocketClient.read_handshake]
      split
      · exact ⟨Or.inr (Or.inl (by simp [hint])), fun _ => Or.inr (Or.inr rfl),
          by simp [hint], by simp [hint]⟩
      · exact ⟨hone, hw, hrhs, hrah⟩
    | handshakeResponse => exact absurd hst (hrhs hr)
    | connected =>
      simp only [WebSocketClient.read_frame]
      cases out with
      | sockErr =>
        refine ⟨Or.inr (Or.inr (by simp [hint])), ?_, ?_, ?_⟩ <;> simp [hint]
      | wouldBlock =>
        simp only [WebSocketClient.readFinish]
        split
        · exact ⟨hone, hw, hrhs, hrah⟩
        · exact ⟨Or.inr (Or.inl (by simp [hint])), fun _ => Or.inl (by assumption),
            by simp [hint], by simp [hint]⟩
      | data rs thenEof =>
        obtain ⟨pst, pbytes, ⟨l, pout⟩, pnoearly, pearly⟩ := processResults_fields rs c
        cases hearly : (c.processResults rs).2.2
        · have pint := pnoearly hearly
          simp only [hearly, Bool.false_eq_true, if_false]
          cases thenEof
          · simp only [Bool.false_eq_true, if_false]
            simp only [WebSocketClient.readFinish]
            split
            · refine ⟨Or.inl (by rw [pint, hint]), ?_, ?_, ?_⟩
              · intro hwt
                rw [pint, hint] at hwt
                simp at hwt
              · intro _
                rw [pst, hst]
                simp
              · intro _ habs
                rw [pst, hst] at habs
                simp at habs
            · refine ⟨Or.inr (Or.inl (by simp [pint, hint])), ?_, ?_, ?_⟩
              · intro _
                exact Or.inl (by assumption)
              · simp [pint, hint]
              · simp [pint, hint]
          · simp only [if_true]
            refine ⟨Or.inr (Or.inr (by simp [pint, hint])), ?_, ?_, ?_⟩ <;>
              simp [pint, hint]
        · have pint := pearly hearly
          simp only [hearly, if_true]
          refine ⟨Or.inr (Or.inr (by simp [pint, hint])), ?_, ?_, ?_⟩ <;>
            simp [pint, hint]
  | write cap werr =>
    have hwt : c.interest.writable = true := hAllowed
    have hint : c.interest = ⟨false, true, false⟩ := by
      rcases hone with h | h | h <;> simp [h] at hwt ⊢
    simp only [applyOp, WebSocketClient.write]
    cases hst : c.state with
    | awaitingHandshake => exact ⟨hone, hw, hrhs, hrah⟩
    | handshakeResponse =>
      simp only [WebSocketClient.write_handshake]
      refine ⟨Or.inl (by simp [hint]), ?_, ?_, ?_⟩ <;> simp [hint, hst]
    | connected =>
      exact inv_write_frames_loop c cap werr hst hint
  | send msg =>
    simp only [applyOp, WebSocketClient.send_message]
    cases hfe : frameForEvent msg with
    | none => exact ⟨hone, hw, hrhs, hrah⟩
    | some frame =>
      simp only []
      split
      · rename_i hr
        have hint : c.interest = ⟨true, false, false⟩ := by
          rcases hone with h | h | h <;> simp [h] at hr ⊢
        refine ⟨Or.inr (Or.inl (by simp [hint])), ?_, ?_, ?_⟩ <;> simp [hint]
      · rename_i hr
        refine ⟨?_, ?_, ?_, ?_⟩
        · rcases hone with h | h | h
          · exact absurd (by simp [h]) hr
          · exact Or.inr (Or.inl (by simp [h]))
          · exact Or.inr (Or.inr (by simp [h]))
        · intro _
          simp
        · intro habs
          exact absurd habs hr
        · intro habs
          exact absurd habs hr

/-- C2 counterexample: from a fresh engine, a readable notification carrying
a complete valid upgrade request leaves the engine writable with an empty
outbound frame queue and byte buffer — refuting "writable is set iff the
outbound frame queue or outbound byte buffer is non-empty". -/
theorem c2_counterexample :
    ((WebSocketClient.new 7).read ⟨true, some "dGhlIHNhbXBsZSBub25jZQ==", some "13"⟩
        .wouldBlock).1.interest.writable = true ∧
    ((WebSocketClient.new 7).read ⟨true, some "dGhlIHNhbXBsZSBub25jZQ==", some "13"⟩
        .wouldBlock).1.outgoing = [] ∧
    ((WebSocketClient.new 7).read ⟨true, some "dGhlIHNhbXBsZSBub25jZQ==", some "13"⟩
        .wouldBlock).1.outgoing_bytes = [] ∧
    ¬(((WebSocketClient.new 7).read ⟨true, some "dGhlIHNhbXBsZSBub25jZQ==", some "13"⟩
        .wouldBlock).1.interest.writable = true ↔
      (((WebSocketClient.new 7).read ⟨true, some "dGhlIHNhbXBsZSBub25jZQ==", some "13"⟩
        .wouldBlock).1.outgoing ≠ [] ∨
       ((WebSocketClient.new 7).read ⟨true, some "dGhlIHNhbXBsZSBub25jZQ==", some "13"⟩
        .wouldBlock).1.outgoing_bytes ≠ [])) := by
  decide

/-- C2 (amended): after every reactor-driven operation — `read` on a
readable engine, `write` on a writable engine, `send_message` at any time —
the engine satisfies `Inv`: exactly one of readable / writable / hangup is
set (so readable and writable are never both set); writable implies the
outbound queue or byte buffer is non-empty or the 101 handshake response is
pending (state `HandshakeResponse`); readable excludes a pending handshake
response; and a readable engine still awaiting the handshake has an empty
outbound side.  The claim's unrestricted iffs fail (see the counterexample):
the handshake response makes the engine writable with an empty outbound
side, and hangup is an interest flag set on error/EOF paths, there being no
terminal state. -/
theorem c2_interest_invariant (c : WebSocketClient) (h : Reachable c) : Inv c := by
  induction h with
  | init token => simp [Inv, WebSocketClient.new, EventSet.onlyReadable]
  | step op _ hAllowed ih => exact inv_applyOp _ op ih hAllowed

/-- Witness for C2: the invariant holds of a concrete reachable engine (a
fresh connection after a completed-upgrade read and a queued text message). -/
theorem c2_interest_invariant_witness :
    Inv (applyOp ((applyOp (WebSocketClient.new 7)
        (.read ⟨true, some "dGhlIHNhbXBsZSBub25jZQ==", some "13"⟩ .wouldBlock)).1)
        (.send (.textMessage 7 "hi"))).1 :=
  c2_interest_invariant _
    (Reachable.step _ (Reachable.step _ (Reachable.init 7) rfl) trivial)

end MioWebsocket
